import Mathlib

/-!
Shallow embedding of the INAD analysis core (`inad_analysis.py`) of the
casa_reporting repository, together with theorems settling the frozen
claims about it.

Conventions of the embedding:
* pandas DataFrames become Lean lists of structure values; a pandas
  group-by becomes `groupCountBy` (first-occurrence key order — every
  theorem below is order-independent, quantifying over list membership);
* Python floats become `ℚ` (the program only ever divides, multiplies and
  compares decimal data, so exact rational arithmetic is the intended
  real-number semantics); Python `None` / `NaN` in a numeric column
  becomes `Option ℚ`;
* Python `int(x)` on a non-negative float becomes `Int.floor`;
* fallible code (`load_inad_data`, whose `datetime(...)` constructor can
  raise `ValueError`) returns `Except String _`.
-/

namespace CasaReporting

/-- Entry refusal codes excluded from the analysis (`EXCLUDE_CODES`). -/
def EXCLUDE_CODES : List String :=
  ["B1n", "B2n", "C4n", "C5n", "C8", "D1n", "D2n", "E", "F1n", "G", "H", "I"]

/-- Refusal-code categories (`REFUSAL_CATEGORIES`), in the source dict's
insertion order, which is the iteration order of the categorisation loop. -/
def REFUSAL_CATEGORIES : List (String × List String) :=
  [("Documentation", ["A", "A1", "A2", "A3", "A4", "A5"]),
   ("Fraud", ["B", "B1", "B1e", "B2", "B2e"]),
   ("Visa", ["C1", "C2", "C3", "C4", "C4e", "C5", "C5e", "C6", "C7"]),
   ("Security", ["D1", "D2", "D2e", "F", "F1", "F1e", "F2"])]

/-- Analysis configuration (the recognised keys of the source's config dict). -/
structure AnalysisConfig where
  minInad : ℕ
  minPax : ℕ
  minDensity : ℚ
  highPriorityMultiplier : ℚ
  highPriorityMinInad : ℕ
  thresholdMethod : String
  trimmedPercent : ℚ
  systemicSemesters : ℕ
  paxCompletenessMonths : ℕ
deriving DecidableEq

/-- The source's `DEFAULT_CONFIG` dictionary. -/
def DEFAULT_CONFIG : AnalysisConfig where
  minInad := 6
  minPax := 5000
  minDensity := 1/10
  highPriorityMultiplier := 3/2
  highPriorityMinInad := 10
  thresholdMethod := "median"
  trimmedPercent := 1/10
  systemicSemesters := 2
  paxCompletenessMonths := 4

/-- One loaded INAD case record (a row of the DataFrame built by
`load_inad_data`; the redundant `Date` column is `(year, month, 1)` and is
represented by the `year`/`month` fields). -/
structure InadRecord where
  airline : String
  lastStop : String
  year : Int
  month : Int
  refusalCode : String
  included : Bool
  category : String
deriving DecidableEq

/-- One monthly PAX row of the `monthly_pax` DataFrame produced by
`load_bazl_data` (grouped by airline, airport, year, month). -/
structure MonthlyPax where
  airline : String
  airport : String
  year : Int
  month : Int
  pax : ℕ
deriving DecidableEq

/-- Count occurrences per key, modelling a pandas `groupby(...).size()`:
one output pair per distinct key, with the number of rows having that key.
Key order is first occurrence; the source orders keys differently
(pandas sorts group keys), which permutes rows only. -/
def groupCountBy {α κ : Type} [DecidableEq κ] (key : α → κ) (l : List α) :
    List (κ × ℕ) :=
  ((l.map key).dedup).map fun k => (k, (l.filter fun a => decide (key a = k)).length)

/-- A row of the Step 1 result (`calculate_step1`). -/
structure Step1Row where
  airline : String
  inadCount : ℕ
  passes : Bool
deriving DecidableEq

/-- Step 1 (Prüfstufe 1): count included cases per airline and flag
airlines with at least `minInad` of them; sorted descending by count. -/
def calculate_step1 (inad : List InadRecord) (minInad : ℕ) : List Step1Row :=
  let included := inad.filter (·.included)
  let counts := groupCountBy (·.airline) included
  (counts.map fun p => ⟨p.1, p.2, decide (minInad ≤ p.2)⟩).insertionSort
    fun a b => b.inadCount ≤ a.inadCount

/-- A row of the Step 2 result (`calculate_step2`). -/
structure Step2Row where
  airline : String
  lastStop : String
  inadCount : ℕ
  passes : Bool
deriving DecidableEq

/-- Step 2 (Prüfstufe 2): restrict to airlines passing Step 1, count
included cases per (airline, last stop) and apply the same threshold. -/
def calculate_step2 (inad : List InadRecord) (step1 : List Step1Row)
    (minInad : ℕ) : List Step2Row :=
  let passingAirlines := (step1.filter (·.passes)).map (·.airline)
  let included := inad.filter fun r =>
    r.included && decide (r.airline ∈ passingAirlines)
  let counts := groupCountBy (fun r => (r.airline, r.lastStop)) included
  (counts.map fun p => ⟨p.1.1, p.1.2, p.2, decide (minInad ≤ p.2)⟩).insertionSort
    fun a b => b.inadCount ≤ a.inadCount

/-- Confidence score (`calculate_confidence_score`): 0 below the PAX floor,
otherwise the truncation (= floor, the value being non-negative) of a
60/40-weighted combination of a case-count score saturating at 20 cases
and a PAX score saturating at 100000 passengers. -/
def calculate_confidence_score (inadCount paxCount : ℕ) (minPax : ℕ) : ℤ :=
  if paxCount < minPax then 0
  else
    let inadScore : ℚ := min 100 ((inadCount : ℚ) / 20 * 100)
    let paxScore : ℚ := min 100 ((paxCount : ℚ) / 100000 * 100)
    ⌊(6/10 : ℚ) * inadScore + (4/10 : ℚ) * paxScore⌋

/-- Median as `np.median` computes it: sort; odd length picks the middle
element, even length averages the two middle elements. -/
def npMedian (l : List ℚ) : ℚ :=
  let s := l.insertionSort (· ≤ ·)
  let n := l.length
  if n % 2 = 1 then s.getD (n / 2) 0
  else (s.getD (n / 2 - 1) 0 + s.getD (n / 2) 0) / 2

/-- Arithmetic mean as `np.mean` computes it. -/
def npMean (l : List ℚ) : ℚ := l.sum / (l.length : ℚ)

/-- Trimmed mean as `scipy.stats.trim_mean` computes it: with
`lowercut = int(trim * n)` and `uppercut = n - lowercut`, the mean of the
sorted slice `[lowercut:uppercut]`. (scipy raises when the cuts cross;
no theorem below reaches that case.) -/
def trimMean (l : List ℚ) (trim : ℚ) : ℚ :=
  let n := l.length
  let lowercut := (⌊trim * (n : ℚ)⌋).toNat
  let uppercut := n - lowercut
  let s := l.insertionSort (· ≤ ·)
  npMean ((s.drop lowercut).take (uppercut - lowercut))

/-- Robust population threshold (`calculate_robust_threshold`): drop the
null densities (`None`; the program's densities are exact rationals, so
the source's `np.isnan` filter has nothing further to remove), return 0
on an empty list, else dispatch on the method name with plain mean as the
fallback branch. -/
def calculate_robust_threshold (densities : List (Option ℚ)) (method : String)
    (trimPercent : ℚ) : ℚ :=
  let valid := densities.filterMap id
  if valid.length = 0 then 0
  else if method = "median" then npMedian valid
  else if method = "trimmed_mean" then trimMean valid trimPercent
  else npMean valid

/-- The quality indicators of `check_pax_data_quality` that the Step 3
pipeline consumes (the dict's derived display fields `data_completeness`
and `avg_monthly_pax` are unused downstream and omitted). -/
structure PaxQuality where
  monthsWithData : ℕ
  isComplete : Bool
  totalPax : ℕ
  highVariance : Bool
deriving DecidableEq

/-- PAX data quality for one route (`check_pax_data_quality`): months with
data, completeness against `min_months`, and the high-variance flag
(`max/min > 10`; the ratio is `inf` — hence high — when the minimum is 0
with data present, and 0 — hence not high — with no data). -/
def check_pax_data_quality (monthly : List MonthlyPax) (airline airport : String)
    (minMonths : ℕ) : PaxQuality :=
  let route := monthly.filter fun m =>
    decide (m.airline = airline) && decide (m.airport = airport)
  let paxes := route.map (·.pax)
  let months := route.length
  let total := paxes.sum
  let highVar :=
    match paxes with
    | [] => false
    | p :: ps =>
      let mx := ps.foldl max p
      let mn := ps.foldl min p
      decide (mn = 0) || decide (10 * mn < mx)
  ⟨months, decide (minMonths ≤ months), total, highVar⟩

/-- The three data-quality warning messages a Step 3 row can carry
(the source's f-strings, with their interpolated numbers elided). -/
inductive PaxWarning where
  | incompletePax
  | highVariancePax
  | lowPaxVolume
deriving DecidableEq

/-- Warning selection of `calculate_step3_enhanced`: first match wins among
incomplete data, high variance, low pooled PAX; otherwise no warning. -/
def quality_warning (q : PaxQuality) (p : ℕ) (minPax : ℕ) : Option PaxWarning :=
  if !q.isComplete then some .incompletePax
  else if q.highVariance then some .highVariancePax
  else if p < minPax then some .lowPaxVolume
  else none

/-- The per-route part of a Step 3 row computed before the population
threshold exists (everything `calculate_step3_enhanced` appends to `rows`
inside its loop). -/
structure Step3Base where
  airline : String
  lastStop : String
  inad : ℕ
  pax : ℕ
  density : Option ℚ
  reliable : Bool
  confidence : ℤ
  dataQuality : Option PaxWarning
  monthsWithData : ℕ
  codeBreakdown : List (String × ℕ)
deriving DecidableEq

/-- A full Step 3 row, after the threshold pass adds the classification
columns. -/
structure Step3Row extends Step3Base where
  priority : String
  aboveThreshold : Bool
  threshold : ℚ
  thresholdMethod : String
deriving DecidableEq

/-- The loop body of `calculate_step3_enhanced` for one passing Step 2 row:
PAX resolution with partner pooling, quality check, warning, density and
reliability, confidence, refusal-category breakdown. -/
def step3BaseRow (paxLookup : String × String → ℕ) (monthly : List MonthlyPax)
    (inad : List InadRecord) (partnerMap : String × String → List String)
    (cfg : AnalysisConfig) (row : Step2Row) : Step3Base :=
  let air := row.airline
  let lst := row.lastStop
  let n := row.inadCount
  let p := paxLookup (air, lst) +
    ((partnerMap (air, lst)).map fun partner => paxLookup (partner, lst)).sum
  let quality := check_pax_data_quality monthly air lst cfg.paxCompletenessMonths
  let warning := quality_warning quality p cfg.minPax
  let densityReliable : Option ℚ × Bool :=
    if cfg.minPax ≤ p then (some ((n : ℚ) / (p : ℚ) * 1000), true)
    else if 0 < p then (some ((n : ℚ) / (p : ℚ) * 1000), false)
    else (none, false)
  let confidence := calculate_confidence_score n p cfg.minPax
  let routeInads := inad.filter fun r =>
    decide (r.airline = air) && decide (r.lastStop = lst) && r.included
  let breakdown := groupCountBy (·.category) routeInads
  ⟨air, lst, n, p, densityReliable.1, densityReliable.2, confidence, warning,
    quality.monthsWithData, breakdown⟩

/-- All Step 3 base rows: one per Step 2 row with `PassesThreshold` true. -/
def step3BaseRows (step2 : List Step2Row) (paxLookup : String × String → ℕ)
    (monthly : List MonthlyPax) (inad : List InadRecord)
    (partnerMap : String × String → List String) (cfg : AnalysisConfig) :
    List Step3Base :=
  (step2.filter (·.passes)).map (step3BaseRow paxLookup monthly inad partnerMap cfg)

/-- Priority classification (`classify_priority` inside
`calculate_step3_enhanced`): null density first, then unreliable, then the
four-condition decision tree against the population threshold. -/
def classify_priority (density : Option ℚ) (reliable : Bool) (inadCount : ℕ)
    (threshold : ℚ) (cfg : AnalysisConfig) : String :=
  match density with
  | none => "NO_DATA"
  | some d =>
    if !reliable then "UNRELIABLE"
    else
      let aboveThreshold := decide (threshold ≤ d)
      let aboveMinDensity := decide (cfg.minDensity ≤ d)
      let highMultiplier := decide (threshold * cfg.highPriorityMultiplier ≤ d)
      let highInad := decide (cfg.highPriorityMinInad ≤ inadCount)
      if aboveThreshold && aboveMinDensity && highMultiplier && highInad then
        "HIGH_PRIORITY"
      else if aboveThreshold then "WATCH_LIST"
      else "CLEAR"

/-- The source's `priority_order` map used for the final sort. -/
def priorityOrder (p : String) : ℕ :=
  if p = "HIGH_PRIORITY" then 0
  else if p = "WATCH_LIST" then 1
  else if p = "UNRELIABLE" then 2
  else if p = "CLEAR" then 3
  else 4

/-- Descending order on an optional density column, nulls last (the pandas
`ascending=False` sort with the `na_position` default). -/
def densGeOpt (a b : Option ℚ) : Prop :=
  match a, b with
  | some x, some y => y ≤ x
  | some _, none => True
  | none, some _ => False
  | none, none => True

instance : DecidableRel densGeOpt := fun a b =>
  match a, b with
  | some x, some y => inferInstanceAs (Decidable (y ≤ x))
  | some _, none => inferInstanceAs (Decidable True)
  | none, some _ => inferInstanceAs (Decidable False)
  | none, none => inferInstanceAs (Decidable True)

/-- Sort key of the final Step 3 sort: ascending priority order, then
descending density with null densities last. -/
def step3RowLe (a b : Step3Row) : Prop :=
  priorityOrder a.priority < priorityOrder b.priority ∨
    (priorityOrder a.priority = priorityOrder b.priority ∧
      densGeOpt a.density b.density)

instance : DecidableRel step3RowLe := fun _ _ =>
  inferInstanceAs (Decidable (_ ∨ _))

/-- The population threshold of one Step 3 run: the robust threshold of the
densities of the reliable base rows only. -/
def step3Threshold (step2 : List Step2Row) (paxLookup : String × String → ℕ)
    (monthly : List MonthlyPax) (inad : List InadRecord)
    (partnerMap : String × String → List String) (cfg : AnalysisConfig) : ℚ :=
  calculate_robust_threshold
    (((step3BaseRows step2 paxLookup monthly inad partnerMap cfg).filter
        (·.reliable)).map (·.density))
    cfg.thresholdMethod cfg.trimmedPercent

/-- The threshold pass of `calculate_step3_enhanced` on one base row: stamp
the classification, the above-threshold flag (false on a null density, the
pandas `NaN >= t` comparison), the threshold and the method. -/
def enrichStep3 (threshold : ℚ) (cfg : AnalysisConfig) (b : Step3Base) : Step3Row :=
  { b with
    priority := classify_priority b.density b.reliable b.inad threshold cfg
    aboveThreshold := match b.density with
      | some d => decide (threshold ≤ d)
      | none => false
    threshold := threshold
    thresholdMethod := cfg.thresholdMethod }

/-- Enhanced Step 3 (`calculate_step3_enhanced`): build the base rows,
compute the robust threshold from the reliable rows' densities only, stamp
the classification columns onto every row, and sort. The source returns an
empty frame for empty input, which the list embedding yields for free. -/
def calculate_step3_enhanced (step2 : List Step2Row)
    (paxLookup : String × String → ℕ) (monthly : List MonthlyPax)
    (inad : List InadRecord) (partnerMap : String × String → List String)
    (cfg : AnalysisConfig) : List Step3Row :=
  let base := step3BaseRows step2 paxLookup monthly inad partnerMap cfg
  let threshold := step3Threshold step2 paxLookup monthly inad partnerMap cfg
  (base.map (enrichStep3 threshold cfg)).insertionSort step3RowLe

/-- One appearance entry in a route's flagged history
(`route_history[route_key]` entries in `detect_systemic_cases`). -/
structure HistEntry where
  semester : String
  priority : String
  density : Option ℚ
  inad : ℕ
  pax : ℕ
deriving DecidableEq

/-- All (route key, appearance entry) pairs, in period order, for rows
flagged HIGH_PRIORITY or WATCH_LIST. -/
def flaggedEntries (results : List (String × List Step3Row)) :
    List ((String × String) × HistEntry) :=
  (results.map fun sr =>
    ((sr.2.filter fun r =>
        decide (r.priority = "HIGH_PRIORITY") || decide (r.priority = "WATCH_LIST")).map
      fun r => ((r.airline, r.lastStop), ⟨sr.1, r.priority, r.density, r.inad, r.pax⟩))).flatten

/-- The history list of one route key (its appended entries, in order). -/
def historyFor (entries : List ((String × String) × HistEntry))
    (k : String × String) : List HistEntry :=
  (entries.filter fun e => decide (e.1 = k)).map (·.2)

/-- Tail of the consecutive-run loop of `detect_systemic_cases`: after the
first iteration set `consecutive_count` and `max_consecutive` to 1, every
later iteration increments the count and takes the running maximum. -/
def maxConsecutiveGo : List HistEntry → ℕ → ℕ → ℕ
  | [], _, mc => mc
  | _ :: rest, cc, mc => maxConsecutiveGo rest (cc + 1) (max mc (cc + 1))

/-- The consecutive-run loop of `detect_systemic_cases`: the loop never
inspects the semester labels, so every entry of the (flagged-only) history
counts as consecutive to its predecessor. -/
def maxConsecutiveLoop (history : List HistEntry) : ℕ :=
  match history with
  | [] => 0
  | _ :: rest => maxConsecutiveGo rest 1 1

/-- Trend computation of `detect_systemic_cases`: with at least two history
entries and at least two non-null densities, compare last to first density
(strictly smaller is IMPROVING, anything else WORSENING) and report the
relative change in percent, 0 when the first density is not positive. -/
def trendOf (history : List HistEntry) : String × ℚ :=
  if 2 ≤ history.length then
    let densities := history.filterMap (·.density)
    if 2 ≤ densities.length then
      let first := densities.headD 0
      let last := densities.getLastD 0
      (if last < first then "IMPROVING" else "WORSENING",
        if 0 < first then (last - first) / first * 100 else 0)
    else ("UNKNOWN", 0)
  else ("NEW", 0)

/-- A row of the systemic-case analysis. The source's trailing `Latest*`
columns read `history[-1]` (guarded on nonemptiness); they are flattened
into plain `Option` fields here. -/
structure SystemicRow where
  airline : String
  lastStop : String
  totalAppearances : ℕ
  maxConsecutive : ℕ
  isSystemic : Bool
  trend : String
  trendPercent : ℚ
  history : List HistEntry
  latestPriority : Option String
  latestDensity : Option ℚ
  latestInad : Option ℕ
deriving DecidableEq

/-- Build the systemic-case row of one route from its history. -/
def systemicRowFor (k : String × String) (history : List HistEntry)
    (requiredConsecutive : ℕ) : SystemicRow :=
  let mc := maxConsecutiveLoop history
  let tr := trendOf history
  ⟨k.1, k.2, history.length, mc, decide (requiredConsecutive ≤ mc), tr.1, tr.2,
    history, (history.getLast?).map (·.priority), (history.getLast?).bind (·.density),
    (history.getLast?).map (·.inad)⟩

/-- Sort key of the systemic result: IsSystemic, TotalAppearances and
LatestDensity all descending (null densities last). -/
def systemicRowLe (a b : SystemicRow) : Prop :=
  b.isSystemic < a.isSystemic ∨
    (a.isSystemic = b.isSystemic ∧
      (b.totalAppearances < a.totalAppearances ∨
        (a.totalAppearances = b.totalAppearances ∧
          densGeOpt a.latestDensity b.latestDensity)))

instance : DecidableRel systemicRowLe := fun _ _ =>
  inferInstanceAs (Decidable (_ ∨ _))

/-- Multi-semester systemic detection (`detect_systemic_cases`): gather the
flagged appearance history per route (keys in first-appearance order, the
`defaultdict` iteration order), run the consecutive-run loop, the systemic
test and the trend computation per route, and sort. -/
def detect_systemic_cases (results : List (String × List Step3Row))
    (cfg : AnalysisConfig) : List SystemicRow :=
  let entries := flaggedEntries results
  let keys := (entries.map (·.1)).dedup
  let rows := keys.map fun k =>
    systemicRowFor k (historyFor entries k) cfg.systemicSemesters
  rows.insertionSort systemicRowLe

/-- A raw worksheet cell of the year/month columns: `none` models an empty
cell, `some none` a value Python's `int(...)` cannot parse, `some (some z)`
a value it parses to the integer `z`. -/
abbrev RawCell : Type := Option (Option Int)

/-- One raw worksheet row of the INAD table as `load_inad_data` reads it. -/
structure RawInadRow where
  airline : Option String
  lastStop : Option String
  year : RawCell
  month : RawCell
  refusalCode : Option String
deriving DecidableEq

/-- Python `str.strip()`: drop leading and trailing whitespace. -/
def pythonStrip (s : String) : String :=
  String.mk (((s.data.dropWhile (·.isWhitespace)).reverse.dropWhile
    (·.isWhitespace)).reverse)

/-- Python `str.rstrip('en')`: drop every trailing character that is an
`e` or an `n`. -/
def rstripEN (s : String) : String :=
  String.mk ((s.data.reverse.dropWhile fun c => c = 'e' || c = 'n').reverse)

/-- The categorisation loop of `load_inad_data`: first category whose code
list contains the code or the code with its `e`/`n` suffix stripped,
defaulting to "Other". -/
def categorize (code : String) : String :=
  match REFUSAL_CATEGORIES.find? fun p =>
    p.2.contains code || p.2.contains (rstripEN code) with
  | some p => p.1
  | none => "Other"

/-- Comparison key of a Python `datetime(y, m, d)`: the date as the integer
`y·10000 + m·100 + d`, strictly monotone in the lexicographic date order on
the valid dates the program builds. -/
def dateKey (y m d : Int) : Int := y * 10000 + m * 100 + d

/-- Python `datetime(year, month, 1)`: raises `ValueError` unless the month
is in 1–12 and the year in `MINYEAR..MAXYEAR` (1–9999); day 1 is always a
valid day. -/
def mkDate (y m : Int) : Except String Int :=
  if 1 ≤ y ∧ y ≤ 9999 ∧ 1 ≤ m ∧ m ≤ 12 then .ok (dateKey y m 1)
  else .error "ValueError"

/-- Build the `InadRecord` of one raw row whose date passed parsing and the
window filter. -/
def mkInadRecord (r : RawInadRow) (y m : Int) : InadRecord :=
  let code := pythonStrip (r.refusalCode.getD "")
  let air := pythonStrip (r.airline.getD "")
  let lst := pythonStrip (r.lastStop.getD "")
  let included := decide (code ≠ "") && decide (code ∉ EXCLUDE_CODES)
  ⟨air, lst, y, m, if code = "" then "Unknown" else code, included, categorize code⟩

/-- Row loop of `load_inad_data`: a row with a missing or unparseable year
or month is silently skipped; a row whose integers reach `datetime` with an
out-of-range month (or year) raises, aborting the whole load; a row dated
outside `[startKey, endKey]` is skipped; any other row yields a record. -/
def loadInadRows (rows : List RawInadRow) (startKey endKey : Int) :
    Except String (List InadRecord) :=
  match rows with
  | [] => .ok []
  | r :: rest =>
    match r.year, r.month with
    | some (some y), some (some m) =>
      match mkDate y m with
      | .error e => .error e
      | .ok dt =>
        if dt < startKey ∨ endKey < dt then loadInadRows rest startKey endKey
        else
          match loadInadRows rest startKey endKey with
          | .error e => .error e
          | .ok recs => .ok (mkInadRecord r y m :: recs)
    | _, _ => loadInadRows rest startKey endKey

/-- Load INAD cases (`load_inad_data`) from the raw worksheet rows. -/
def load_inad_data (rows : List RawInadRow) (startKey endKey : Int) :
    Except String (List InadRecord) :=
  loadInadRows rows startKey endKey

/-- Semester bucket of one (year, month) pair in `get_available_semesters`:
months 1–6 map to H1 with its calendar bounds, every other month to H2. -/
def bucketSemester (p : Int × Int) : Int × ℕ × String × String :=
  if 1 ≤ p.2 ∧ p.2 ≤ 6 then
    (p.1, 1, toString p.1 ++ "-01-01", toString p.1 ++ "-06-30")
  else
    (p.1, 2, toString p.1 ++ "-07-01", toString p.1 ++ "-12-31")

/-- Descending order on semester tuples. Python sorts the 4-tuples
lexicographically with `reverse=True`; the date strings are determined by
year and semester, so on the distinct tuples the program builds this is
the descending lexicographic order on (year, semester). -/
def semTupleGe (a b : Int × ℕ × String × String) : Prop :=
  b.1 < a.1 ∨ (a.1 = b.1 ∧ b.2.1 ≤ a.2.1)

instance : DecidableRel semTupleGe := fun _ _ =>
  inferInstanceAs (Decidable (_ ∨ _))

instance : IsTotal (Int × ℕ × String × String) semTupleGe where
  total a b := by
    unfold semTupleGe
    rcases lt_trichotomy a.1 b.1 with h | h | h
    · exact Or.inr (Or.inl h)
    · omega
    · exact Or.inl (Or.inl h)

instance : IsTrans (Int × ℕ × String × String) semTupleGe where
  trans a b c hab hbc := by
    unfold semTupleGe at *
    omega

/-- Period enumerator (`get_available_semesters`): parse the distinct
(year, month) pairs of the raw rows (skipping missing and unparseable
cells), bucket each into its semester tuple, deduplicate (the source
collects into a `set`) and sort descending. -/
def get_available_semesters (rows : List (RawCell × RawCell)) :
    List (Int × ℕ × String × String) :=
  let yearMonths := (rows.filterMap fun c =>
    match c with
    | (some (some y), some (some m)) => some (y, m)
    | _ => none).dedup
  let sems := (yearMonths.map bucketSemester).dedup
  sems.insertionSort semTupleGe

/-! ### Concrete inputs used by the example theorems and witnesses -/

/-- The density list of the threshold-robustness scenario, with its extreme
outlier. -/
def densitiesWithOutlier : List (Option ℚ) :=
  [some (1/20), some (3/50), some (1/20), some (7/100), some 50]

/-- The same density list with the outlier removed. -/
def densitiesNoOutlier : List (Option ℚ) :=
  [some (1/20), some (3/50), some (1/20), some (7/100)]

/-- A one-route Step 2 result used by concrete pipeline runs. -/
def exampleStep2 : List Step2Row := [⟨"AA", "XXX", 12, true⟩]

/-- A PAX lookup with no data at all. -/
def examplePaxLookup : String × String → ℕ := fun _ => 0

/-- An empty partner-carrier mapping. -/
def examplePartnerMap : String × String → List String := fun _ => []

/-- The single Step 3 row `calculate_step3_enhanced` produces from
`exampleStep2` with no PAX, no monthly data and no case records under the
default configuration. -/
def exampleStep3Row : Step3Row :=
  { airline := "AA", lastStop := "XXX", inad := 12, pax := 0, density := none,
    reliable := false, confidence := 0, dataQuality := some .incompletePax,
    monthsWithData := 0, codeBreakdown := [], priority := "NO_DATA",
    aboveThreshold := false, threshold := 0, thresholdMethod := "median" }

/-- The base part of `exampleStep3Row`, as a one-element base-row list. -/
def exampleBase : List Step3Base := [exampleStep3Row.toStep3Base]

/-- A single-record case table: one included case of airline AA on route
XXX. -/
def exampleInad : List InadRecord :=
  [⟨"AA", "XXX", 2024, 3, "A1", true, "Documentation"⟩]

/-- A Step 3 row of route AA/XXX carrying a given priority and no density,
used to build systemic-detector inputs. -/
def exampleFlaggedRow (priority : String) : Step3Row :=
  { airline := "AA", lastStop := "XXX", inad := 7, pax := 10000, density := none,
    reliable := false, confidence := 0, dataQuality := none, monthsWithData := 0,
    codeBreakdown := [], priority := priority, aboveThreshold := false,
    threshold := 0, thresholdMethod := "median" }

/-- Three periods in which route AA/XXX is flagged in the first and third
period but not the second. -/
def gapExampleResults : List (String × List Step3Row) :=
  [("2023 H1", [exampleFlaggedRow "WATCH_LIST"]),
   ("2023 H2", [exampleFlaggedRow "CLEAR"]),
   ("2024 H1", [exampleFlaggedRow "HIGH_PRIORITY"])]

/-- One period in which route AA/XXX is flagged once. -/
def singleExampleResults : List (String × List Step3Row) :=
  [("2023 H1", [exampleFlaggedRow "WATCH_LIST"])]

/-- The systemic-case row `detect_systemic_cases` produces from
`gapExampleResults` under the default configuration. -/
def gapExampleRow : SystemicRow :=
  { airline := "AA", lastStop := "XXX", totalAppearances := 2, maxConsecutive := 2,
    isSystemic := true, trend := "UNKNOWN", trendPercent := 0,
    history := [⟨"2023 H1", "WATCH_LIST", none, 7, 10000⟩,
      ⟨"2024 H1", "HIGH_PRIORITY", none, 7, 10000⟩],
    latestPriority := some "HIGH_PRIORITY", latestDensity := none,
    latestInad := some 7 }

/-- A flagged-history entry with a given semester label and density. -/
def histEntryWith (semester : String) (d : ℚ) : HistEntry :=
  ⟨semester, "WATCH_LIST", some d, 7, 10000⟩

/-- A two-entry history whose density falls from 0.30 to 0.20. -/
def improvingHist : List HistEntry :=
  [histEntryWith "2023 H1" (3/10), histEntryWith "2023 H2" (2/10)]

/-- A two-entry history whose density rises from 0.20 to 0.30. -/
def worseningHist : List HistEntry :=
  [histEntryWith "2023 H1" (2/10), histEntryWith "2023 H2" (3/10)]

/-- A raw INAD worksheet row with a well-formed date in 2024-03. -/
def goodRawRow : RawInadRow :=
  ⟨some "AA", some "XXX", some (some 2024), some (some 3), some "A1"⟩

/-- A raw row whose year and month parse as integers but whose month, 13,
is outside the range `datetime` accepts. -/
def badMonthRawRow : RawInadRow :=
  ⟨some "AA", some "XXX", some (some 2024), some (some 13), some "A1"⟩

/-- A raw row with a missing year cell. -/
def missingYearRawRow : RawInadRow :=
  ⟨some "AA", some "XXX", none, some (some 3), some "A1"⟩

/-- A raw row whose month cell does not parse as an integer. -/
def unparseableMonthRawRow : RawInadRow :=
  ⟨some "AA", some "XXX", some (some 2024), some none, some "A1"⟩

/-! ### Theorems settling the claims -/

/-- C6: the confidence score is an integer in 0..100; it is 0 whenever the
PAX count is below the floor, whatever the case count; otherwise it is the
floor of the 60/40-weighted combination of the saturating case-count and
PAX scores. -/
theorem c6_confidence_score (inadCount paxCount minPax : ℕ) :
    0 ≤ calculate_confidence_score inadCount paxCount minPax ∧
    calculate_confidence_score inadCount paxCount minPax ≤ 100 ∧
    (paxCount < minPax → calculate_confidence_score inadCount paxCount minPax = 0) ∧
    (minPax ≤ paxCount →
      calculate_confidence_score inadCount paxCount minPax =
        ⌊(6/10 : ℚ) * min 100 ((inadCount : ℚ) / 20 * 100) +
          (4/10 : ℚ) * min 100 ((paxCount : ℚ) / 100000 * 100)⌋) := by
  unfold calculate_confidence_score
  by_cases h : paxCount < minPax
  · simp [h]
  · have hIa : (0 : ℚ) ≤ min 100 ((inadCount : ℚ) / 20 * 100) :=
      le_min (by norm_num) (by positivity)
    have hIb : min 100 ((inadCount : ℚ) / 20 * 100) ≤ 100 := min_le_left _ _
    have hPa : (0 : ℚ) ≤ min 100 ((paxCount : ℚ) / 100000 * 100) :=
      le_min (by norm_num) (by positivity)
    have hPb : min 100 ((paxCount : ℚ) / 100000 * 100) ≤ 100 := min_le_left _ _
    set x : ℚ := (6/10 : ℚ) * min 100 ((inadCount : ℚ) / 20 * 100) +
      (4/10 : ℚ) * min 100 ((paxCount : ℚ) / 100000 * 100) with hx
    have hx0 : (0 : ℚ) ≤ x := by rw [hx]; positivity
    have hx100 : x ≤ 100 := by rw [hx]; nlinarith
    have hfl : (⌊x⌋ : ℚ) ≤ 100 := le_trans (Int.floor_le x) hx100
    refine ⟨?_, ?_, fun hc => absurd hc h, fun _ => by simp [h]⟩
    · simp only [h, if_false]
      exact Int.floor_nonneg.mpr hx0
    · simp only [h, if_false]
      exact_mod_cast hfl

/-- C6 witness: below the PAX floor the score is 0 even with many cases;
at 10 cases and 200000 PAX the formula gives exactly 70. -/
theorem c6_confidence_score_witness :
    calculate_confidence_score 40 4999 5000 = 0 ∧
    calculate_confidence_score 10 200000 5000 = 70 := by
  constructor
  · exact (c6_confidence_score 40 4999 5000).2.2.1 (by norm_num)
  · have h := (c6_confidence_score 10 200000 5000).2.2.2 (by norm_num)
    rw [h]
    have h1 : min (100 : ℚ) ((10 : ℕ) / 20 * 100) = 50 := by
      rw [min_eq_right (by norm_num)]
      norm_num
    have h2 : min (100 : ℚ) ((200000 : ℕ) / 100000 * 100) = 100 := by
      rw [min_eq_left (by norm_num)]
    rw [h1, h2, show ((6/10 : ℚ) * 50 + (4/10 : ℚ) * 100) = ((70 : ℤ) : ℚ) by norm_num,
      Int.floor_intCast]

/-- C3 counterexample: on [0.05, 0.06, 0.05, 0.07, 50.0] the median
threshold is 0.06 with the outlier and 0.055 without, a change of 0.005 —
more than 5% of either value (8.3% resp. 9.1%), so the median threshold
does not change by less than 5% under either baseline. -/
theorem c3_counterexample :
    ¬ (|calculate_robust_threshold densitiesWithOutlier "median" (1/10) -
          calculate_robust_threshold densitiesNoOutlier "median" (1/10)| <
        (5/100) * calculate_robust_threshold densitiesNoOutlier "median" (1/10) ∨
       |calculate_robust_threshold densitiesWithOutlier "median" (1/10) -
          calculate_robust_threshold densitiesNoOutlier "median" (1/10)| <
        (5/100) * calculate_robust_threshold densitiesWithOutlier "median" (1/10)) := by
  have h5 : calculate_robust_threshold densitiesWithOutlier "median" (1/10) = 3/50 := by
    simp [calculate_robust_threshold, densitiesWithOutlier, npMedian,
      List.insertionSort, List.orderedInsert]
    norm_num
  have h4 : calculate_robust_threshold densitiesNoOutlier "median" (1/10) = 11/200 := by
    simp [calculate_robust_threshold, densitiesNoOutlier, npMedian,
      List.insertionSort, List.orderedInsert]
    norm_num
  rw [h5, h4]
  norm_num [abs_of_nonneg]

/-- C3 (amended): for the density list [0.05, 0.06, 0.05, 0.07, 50.0],
relative to the outlier-free value the median threshold changes by less
than 10% when the outlier is removed, while the mean threshold changes by
more than 300%. -/
theorem c3_amended_robustness :
    |calculate_robust_threshold densitiesWithOutlier "median" (1/10) -
        calculate_robust_threshold densitiesNoOutlier "median" (1/10)| <
      (10/100) * calculate_robust_threshold densitiesNoOutlier "median" (1/10) ∧
    |calculate_robust_threshold densitiesWithOutlier "mean" (1/10) -
        calculate_robust_threshold densitiesNoOutlier "mean" (1/10)| >
      (300/100) * calculate_robust_threshold densitiesNoOutlier "mean" (1/10) := by
  have h5 : calculate_robust_threshold densitiesWithOutlier "median" (1/10) = 3/50 := by
    simp [calculate_robust_threshold, densitiesWithOutlier, npMedian,
      List.insertionSort, List.orderedInsert]
    norm_num
  have h4 : calculate_robust_threshold densitiesNoOutlier "median" (1/10) = 11/200 := by
    simp [calculate_robust_threshold, densitiesNoOutlier, npMedian,
      List.insertionSort, List.orderedInsert]
    norm_num
  have h5m : calculate_robust_threshold densitiesWithOutlier "mean" (1/10) = 5023/500 := by
    simp [calculate_robust_threshold, densitiesWithOutlier, npMean]
    norm_num
  have h4m : calculate_robust_threshold densitiesNoOutlier "mean" (1/10) = 23/400 := by
    simp [calculate_robust_threshold, densitiesNoOutlier, npMean]
    norm_num
  rw [h5, h4, h5m, h4m]
  norm_num [abs_of_nonneg]

/-- The classifier on a reliable row with non-null density, written as the
four-condition decision tree. -/
theorem classify_priority_reliable_eq (d : ℚ) (inadCount : ℕ) (threshold : ℚ)
    (cfg : AnalysisConfig) :
    classify_priority (some d) true inadCount threshold cfg =
      if threshold ≤ d ∧ cfg.minDensity ≤ d ∧
          threshold * cfg.highPriorityMultiplier ≤ d ∧
          cfg.highPriorityMinInad ≤ inadCount then "HIGH_PRIORITY"
      else if threshold ≤ d then "WATCH_LIST"
      else "CLEAR" := by
  simp only [classify_priority, Bool.not_true, Bool.false_eq_true, if_false,
    Bool.and_eq_true, decide_eq_true_eq]
  split_ifs <;> tauto

/-- C1: on a reliable row with non-null density, HIGH_PRIORITY holds exactly
when all four conditions hold, WATCH_LIST exactly when the density meets the
threshold but not all four hold, CLEAR exactly when it misses the threshold;
a null density gives NO_DATA and an unreliable non-null row UNRELIABLE; the
classifier yields exactly one of the five tiers; and in the boundary
scenario (threshold 0.10, default config) density 0.20 with 12 cases is
HIGH_PRIORITY while the same density with 9 cases is WATCH_LIST. -/
theorem c1_priority_tiers (dOpt : Option ℚ) (d : ℚ) (reliable : Bool)
    (inadCount : ℕ) (threshold : ℚ) (cfg : AnalysisConfig) :
    (classify_priority (some d) true inadCount threshold cfg = "HIGH_PRIORITY" ↔
      threshold ≤ d ∧ cfg.minDensity ≤ d ∧
        threshold * cfg.highPriorityMultiplier ≤ d ∧
        cfg.highPriorityMinInad ≤ inadCount) ∧
    (classify_priority (some d) true inadCount threshold cfg = "WATCH_LIST" ↔
      threshold ≤ d ∧ ¬(threshold ≤ d ∧ cfg.minDensity ≤ d ∧
        threshold * cfg.highPriorityMultiplier ≤ d ∧
        cfg.highPriorityMinInad ≤ inadCount)) ∧
    (classify_priority (some d) true inadCount threshold cfg = "CLEAR" ↔
      ¬ threshold ≤ d) ∧
    classify_priority none reliable inadCount threshold cfg = "NO_DATA" ∧
    classify_priority (some d) false inadCount threshold cfg = "UNRELIABLE" ∧
    classify_priority dOpt reliable inadCount threshold cfg ∈
      ["HIGH_PRIORITY", "WATCH_LIST", "CLEAR", "UNRELIABLE", "NO_DATA"] ∧
    classify_priority (some (2/10)) true 12 (1/10) DEFAULT_CONFIG = "HIGH_PRIORITY" ∧
    classify_priority (some (2/10)) true 9 (1/10) DEFAULT_CONFIG = "WATCH_LIST" := by
  have hmem : classify_priority dOpt reliable inadCount threshold cfg ∈
      ["HIGH_PRIORITY", "WATCH_LIST", "CLEAR", "UNRELIABLE", "NO_DATA"] := by
    rcases dOpt with _ | d'
    · simp [classify_priority]
    · rcases reliable with _ | _
      · simp [classify_priority]
      · rw [show (true : Bool) = true from rfl, classify_priority_reliable_eq]
        split_ifs <;> simp
  have hhigh : classify_priority (some (2/10 : ℚ)) true 12 (1/10) DEFAULT_CONFIG =
      "HIGH_PRIORITY" := by
    rw [classify_priority_reliable_eq, if_pos]
    refine ⟨by norm_num, by norm_num [DEFAULT_CONFIG], ?_, by norm_num [DEFAULT_CONFIG]⟩
    norm_num [DEFAULT_CONFIG]
  have hwatch : classify_priority (some (2/10 : ℚ)) true 9 (1/10) DEFAULT_CONFIG =
      "WATCH_LIST" := by
    rw [classify_priority_reliable_eq, if_neg, if_pos (by norm_num)]
    norm_num [DEFAULT_CONFIG]
  refine ⟨?_, ?_, ?_, by simp [classify_priority], by simp [classify_priority],
    hmem, hhigh, hwatch⟩
  · rw [classify_priority_reliable_eq]
    split_ifs with h1 h2 <;> simp_all
  · rw [classify_priority_reliable_eq]
    split_ifs with h1 h2 <;> simp_all
  · rw [classify_priority_reliable_eq]
    split_ifs with h1 h2 <;> simp_all

/-- Membership in the enhanced Step 3 result: every row is the enrichment
of the base row of some passing Step 2 row, and conversely. -/
theorem mem_calculate_step3_enhanced {step2 : List Step2Row}
    {paxLookup : String × String → ℕ} {monthly : List MonthlyPax}
    {inad : List InadRecord} {partnerMap : String × String → List String}
    {cfg : AnalysisConfig} {r : Step3Row} :
    r ∈ calculate_step3_enhanced step2 paxLookup monthly inad partnerMap cfg ↔
      ∃ row2 ∈ step2.filter (·.passes),
        r = enrichStep3 (step3Threshold step2 paxLookup monthly inad partnerMap cfg)
          cfg (step3BaseRow paxLookup monthly inad partnerMap cfg row2) := by
  simp only [calculate_step3_enhanced, step3BaseRows, List.mem_insertionSort,
    List.mem_map]
  constructor
  · rintro ⟨b, ⟨row2, h2, rfl⟩, rfl⟩
    exact ⟨row2, h2, rfl⟩
  · rintro ⟨row2, h2, rfl⟩
    exact ⟨_, ⟨row2, h2, rfl⟩, rfl⟩

/-- C4: the threshold stamped onto every Step 3 row is the robust threshold
of the reliable base rows' densities alone; appending unreliable rows to a
base-row list leaves that computation unchanged; the robust threshold of an
empty density list is 0 for every method; and when no base row is reliable
every stamped threshold is 0. -/
theorem c4_threshold_reliable_only (step2 : List Step2Row)
    (paxLookup : String × String → ℕ) (monthly : List MonthlyPax)
    (inad : List InadRecord) (partnerMap : String × String → List String)
    (cfg : AnalysisConfig) (bs extra : List Step3Base) (method : String)
    (trim : ℚ) :
    (∀ r ∈ calculate_step3_enhanced step2 paxLookup monthly inad partnerMap cfg,
      r.threshold = calculate_robust_threshold
        (((step3BaseRows step2 paxLookup monthly inad partnerMap cfg).filter
            (·.reliable)).map (·.density))
        cfg.thresholdMethod cfg.trimmedPercent) ∧
    ((∀ b ∈ extra, b.reliable = false) →
      calculate_robust_threshold
        ((((bs ++ extra).filter (·.reliable)).map (·.density))) method trim =
      calculate_robust_threshold (((bs.filter (·.reliable)).map (·.density)))
        method trim) ∧
    calculate_robust_threshold [] method trim = 0 ∧
    ((∀ b ∈ step3BaseRows step2 paxLookup monthly inad partnerMap cfg,
        b.reliable = false) →
      ∀ r ∈ calculate_step3_enhanced step2 paxLookup monthly inad partnerMap cfg,
        r.threshold = 0) := by
  have hstamp : ∀ r ∈ calculate_step3_enhanced step2 paxLookup monthly inad
      partnerMap cfg,
      r.threshold = step3Threshold step2 paxLookup monthly inad partnerMap cfg := by
    intro r hr
    obtain ⟨row2, _, rfl⟩ := mem_calculate_step3_enhanced.mp hr
    rfl
  refine ⟨hstamp, ?_, rfl, ?_⟩
  · intro hex
    have hx : extra.filter (·.reliable) = [] :=
      List.filter_eq_nil_iff.mpr fun b hb => by simp [hex b hb]
    rw [List.filter_append, hx, List.append_nil]
  · intro hnone r hr
    rw [hstamp r hr]
    unfold step3Threshold
    have hx : (step3BaseRows step2 paxLookup monthly inad partnerMap cfg).filter
        (·.reliable) = [] :=
      List.filter_eq_nil_iff.mpr fun b hb => by simp [hnone b hb]
    rw [hx, List.map_nil]
    rfl

/-- C4 witness: in the concrete no-PAX pipeline no row is reliable and the
stamped threshold is 0; appending the unreliable base row changes nothing;
and the empty-list threshold is 0 for the median method. -/
theorem c4_witness :
    exampleStep3Row.threshold = 0 ∧
    calculate_robust_threshold
      ((((exampleBase ++ exampleBase).filter (·.reliable)).map (·.density)))
      "median" (1/10) =
      calculate_robust_threshold
        (((exampleBase.filter (·.reliable)).map (·.density))) "median" (1/10) ∧
    calculate_robust_threshold [] "median" (1/10) = 0 := by
  have h := c4_threshold_reliable_only exampleStep2 examplePaxLookup [] []
    examplePartnerMap DEFAULT_CONFIG exampleBase exampleBase "median" (1/10)
  refine ⟨?_, h.2.1 (by decide), h.2.2.1⟩
  exact h.2.2.2 (by decide) exampleStep3Row (by
    rw [show calculate_step3_enhanced exampleStep2 examplePaxLookup [] []
      examplePartnerMap DEFAULT_CONFIG = [exampleStep3Row] from rfl]
    exact List.mem_singleton_self _)

/-- C5: the data-quality warning of a quality record (whose completeness
flag is the months-of-data test, as `check_pax_data_quality` produces it)
is chosen by first-match precedence — the incomplete-data warning exactly
when the months of data fall short, the high-variance warning exactly when
complete but high-variance, the low-volume warning exactly when complete,
not high-variance and below the PAX floor, and no warning otherwise (so at
most one warning); `check_pax_data_quality` always satisfies that
completeness equation; and every Step 3 row's warning is exactly this
selection applied to its route's quality record and pooled PAX. -/
theorem c5_warning_precedence (q : PaxQuality) (minMonths p minPax : ℕ)
    (monthly : List MonthlyPax) (airline airport : String)
    (step2 : List Step2Row) (paxLookup : String × String → ℕ)
    (inad : List InadRecord) (partnerMap : String × String → List String)
    (cfg : AnalysisConfig)
    (hq : q.isComplete = decide (minMonths ≤ q.monthsWithData)) :
    (quality_warning q p minPax = some PaxWarning.incompletePax ↔
      q.monthsWithData < minMonths) ∧
    (quality_warning q p minPax = some PaxWarning.highVariancePax ↔
      minMonths ≤ q.monthsWithData ∧ q.highVariance = true) ∧
    (quality_warning q p minPax = some PaxWarning.lowPaxVolume ↔
      minMonths ≤ q.monthsWithData ∧ q.highVariance = false ∧ p < minPax) ∧
    (quality_warning q p minPax = none ↔
      minMonths ≤ q.monthsWithData ∧ q.highVariance = false ∧ minPax ≤ p) ∧
    (check_pax_data_quality monthly airline airport minMonths).isComplete =
      decide (minMonths ≤
        (check_pax_data_quality monthly airline airport minMonths).monthsWithData) ∧
    (∀ r ∈ calculate_step3_enhanced step2 paxLookup monthly inad partnerMap cfg,
      r.dataQuality = quality_warning
        (check_pax_data_quality monthly r.airline r.lastStop
          cfg.paxCompletenessMonths)
        r.pax cfg.minPax) := by
  have hcheck : (check_pax_data_quality monthly airline airport minMonths).isComplete =
      decide (minMonths ≤
        (check_pax_data_quality monthly airline airport minMonths).monthsWithData) := by
    simp [check_pax_data_quality]
  have hlink : ∀ r ∈ calculate_step3_enhanced step2 paxLookup monthly inad
      partnerMap cfg,
      r.dataQuality = quality_warning
        (check_pax_data_quality monthly r.airline r.lastStop
          cfg.paxCompletenessMonths)
        r.pax cfg.minPax := by
    intro r hr
    obtain ⟨row2, _, rfl⟩ := mem_calculate_step3_enhanced.mp hr
    rfl
  have hiffs :
      (quality_warning q p minPax = some PaxWarning.incompletePax ↔
        q.monthsWithData < minMonths) ∧
      (quality_warning q p minPax = some PaxWarning.highVariancePax ↔
        minMonths ≤ q.monthsWithData ∧ q.highVariance = true) ∧
      (quality_warning q p minPax = some PaxWarning.lowPaxVolume ↔
        minMonths ≤ q.monthsWithData ∧ q.highVariance = false ∧ p < minPax) ∧
      (quality_warning q p minPax = none ↔
        minMonths ≤ q.monthsWithData ∧ q.highVariance = false ∧ minPax ≤ p) := by
    unfold quality_warning
    rw [hq]
    by_cases h1 : minMonths ≤ q.monthsWithData <;>
      by_cases h2 : q.highVariance = true <;>
        by_cases h3 : p < minPax <;>
          simp_all [Nat.not_le, Nat.not_lt]
  exact ⟨hiffs.1, hiffs.2.1, hiffs.2.2.1, hiffs.2.2.2, hcheck, hlink⟩

/-- C5 witness: the route of the concrete no-PAX pipeline has no monthly
data, so its quality record is incomplete and the row carries exactly the
incomplete-data warning. -/
theorem c5_witness :
    quality_warning (check_pax_data_quality [] "AA" "XXX" 4) 0 5000 =
      some PaxWarning.incompletePax ∧
    exampleStep3Row.dataQuality = quality_warning
      (check_pax_data_quality [] "AA" "XXX" 4) 0 5000 := by
  have h := c5_warning_precedence (check_pax_data_quality [] "AA" "XXX" 4) 4 0 5000
    [] "AA" "XXX" exampleStep2 examplePaxLookup [] examplePartnerMap DEFAULT_CONFIG
    (by rfl)
  refine ⟨h.1.mpr (by decide), ?_⟩
  exact h.2.2.2.2.2 exampleStep3Row (by
    rw [show calculate_step3_enhanced exampleStep2 examplePaxLookup [] []
      examplePartnerMap DEFAULT_CONFIG = [exampleStep3Row] from rfl]
    exact List.mem_singleton_self _)

/-- The loop tail computes the maximum of the accumulator and the count
reached at the end, which grows by one per entry. -/
theorem maxConsecutiveGo_eq (l : List HistEntry) (cc mc : ℕ) (h : cc ≤ mc) :
    maxConsecutiveGo l cc mc = max mc (cc + l.length) := by
  induction l generalizing cc mc with
  | nil =>
    rw [maxConsecutiveGo]
    simp only [List.length_nil]
    omega
  | cons x xs ih =>
    rw [maxConsecutiveGo, ih (cc + 1) (max mc (cc + 1)) (le_max_right _ _)]
    simp only [List.length_cons]
    omega

/-- The consecutive-run loop never looks at the semester labels, so it
returns the plain length of the history list. -/
theorem maxConsecutiveLoop_eq_length (l : List HistEntry) :
    maxConsecutiveLoop l = l.length := by
  cases l with
  | nil => rfl
  | cons x xs =>
    rw [maxConsecutiveLoop, maxConsecutiveGo_eq xs 1 1 le_rfl]
    simp only [List.length_cons]
    omega

/-- Every row of the systemic-case result is the row built from some route
key's flagged history. -/
theorem mem_detect_systemic_cases {results : List (String × List Step3Row)}
    {cfg : AnalysisConfig} {r : SystemicRow}
    (hr : r ∈ detect_systemic_cases results cfg) :
    ∃ k, r = systemicRowFor k (historyFor (flaggedEntries results) k)
      cfg.systemicSemesters := by
  simp only [detect_systemic_cases, List.mem_insertionSort, List.mem_map] at hr
  obtain ⟨k, _, rfl⟩ := hr
  exact ⟨k, rfl⟩

/-- C2: the consecutive-run loop returns the total number of entries of the
(flagged-only) history, so in every systemic-case row MaxConsecutive equals
TotalAppearances, without regard to period adjacency, and IsSystemic holds
exactly when MaxConsecutive reaches `systemic_semesters`; concretely, under
the default configuration (systemic_semesters = 2) the route flagged in
periods one and three but not two gets MaxConsecutive 2 and IsSystemic
true, and a route flagged in a single period gets IsSystemic false. -/
theorem c2_systemic_consecutive (results : List (String × List Step3Row))
    (cfg : AnalysisConfig) (history : List HistEntry) :
    maxConsecutiveLoop history = history.length ∧
    (∀ row ∈ detect_systemic_cases results cfg,
      row.maxConsecutive = row.totalAppearances ∧
      (row.isSystemic = true ↔ cfg.systemicSemesters ≤ row.maxConsecutive)) ∧
    (detect_systemic_cases gapExampleResults DEFAULT_CONFIG).map
      (fun r => (r.maxConsecutive, r.isSystemic)) = [(2, true)] ∧
    (detect_systemic_cases singleExampleResults DEFAULT_CONFIG).map
      (fun r => (r.maxConsecutive, r.isSystemic)) = [(1, false)] := by
  refine ⟨maxConsecutiveLoop_eq_length history, ?_, rfl, rfl⟩
  intro row hrow
  obtain ⟨k, rfl⟩ := mem_detect_systemic_cases hrow
  unfold systemicRowFor
  simp [maxConsecutiveLoop_eq_length]

/-- C2 witness: the gap-example run contains its expected row, in which
MaxConsecutive equals TotalAppearances and IsSystemic reflects the
threshold 2. -/
theorem c2_systemic_consecutive_witness :
    gapExampleRow ∈ detect_systemic_cases gapExampleResults DEFAULT_CONFIG ∧
    gapExampleRow.maxConsecutive = gapExampleRow.totalAppearances ∧
    (gapExampleRow.isSystemic = true ↔ 2 ≤ gapExampleRow.maxConsecutive) := by
  have hm : gapExampleRow ∈ detect_systemic_cases gapExampleResults DEFAULT_CONFIG := by
    rw [show detect_systemic_cases gapExampleResults DEFAULT_CONFIG =
      [gapExampleRow] from rfl]
    exact List.mem_singleton_self _
  have h := (c2_systemic_consecutive gapExampleResults DEFAULT_CONFIG []).2.1
    gapExampleRow hm
  exact ⟨hm, h.1, h.2⟩

/-- C7: when the history has at least two non-null densities the trend is
IMPROVING exactly when the last density is strictly below the first and
WORSENING otherwise, with the trend percent given by the relative-change
formula and 0 when the first density is 0; fewer than two history entries
give trend NEW; every systemic-case row's trend fields are this computation
on its own history; and the concrete histories [0.30, 0.20] and
[0.20, 0.30] give IMPROVING at -33.33 (within 0.01) and WORSENING at +50. -/
theorem c7_trend (history histShort : List HistEntry)
    (results : List (String × List Step3Row)) (cfg : AnalysisConfig) :
    (2 ≤ (history.filterMap (·.density)).length →
      ((trendOf history).1 = "IMPROVING" ↔
        (history.filterMap (·.density)).getLastD 0 <
          (history.filterMap (·.density)).headD 0) ∧
      ((trendOf history).1 = "WORSENING" ↔
        ¬ (history.filterMap (·.density)).getLastD 0 <
          (history.filterMap (·.density)).headD 0) ∧
      (0 < (history.filterMap (·.density)).headD 0 →
        (trendOf history).2 =
          ((history.filterMap (·.density)).getLastD 0 -
            (history.filterMap (·.density)).headD 0) /
          (history.filterMap (·.density)).headD 0 * 100) ∧
      ((history.filterMap (·.density)).headD 0 = 0 → (trendOf history).2 = 0)) ∧
    (histShort.length < 2 → trendOf histShort = ("NEW", 0)) ∧
    (∀ r ∈ detect_systemic_cases results cfg,
      (r.trend, r.trendPercent) = trendOf r.history) ∧
    (trendOf improvingHist).1 = "IMPROVING" ∧
    |(trendOf improvingHist).2 - (-3333/100)| ≤ 1/100 ∧
    trendOf worseningHist = ("WORSENING", 50) := by
  have himpr : trendOf improvingHist = ("IMPROVING", -100/3) := by
    simp only [trendOf, improvingHist, histEntryWith, List.filterMap, List.length]
    norm_num
  have hwors : trendOf worseningHist = ("WORSENING", 50) := by
    simp only [trendOf, worseningHist, histEntryWith, List.filterMap, List.length]
    norm_num
  refine ⟨?_, ?_, ?_, by rw [himpr], by rw [himpr]; norm_num [abs_of_nonneg], hwors⟩
  · intro h2
    have hlen : 2 ≤ history.length :=
      le_trans h2 (List.length_filterMap_le _ _)
    unfold trendOf
    rw [if_pos hlen, if_pos h2]
    dsimp only
    refine ⟨?_, ?_, ?_, ?_⟩
    · split_ifs with hcmp
      · exact iff_of_true rfl hcmp
      · exact iff_of_false (by decide) hcmp
    · split_ifs with hcmp
      · exact iff_of_false (by decide) fun hn => hn hcmp
      · exact iff_of_true rfl hcmp
    · intro hpos
      rw [if_pos hpos]
    · intro hzero
      rw [if_neg (by rw [hzero]; exact lt_irrefl 0)]
  · intro hshort
    unfold trendOf
    rw [if_neg (by omega)]
  · intro r hr
    obtain ⟨k, rfl⟩ := mem_detect_systemic_cases hr
    rfl

/-- C7 witness: the improving history has two non-null densities and its
trend fields follow the formula; a one-entry history is NEW; and the
gap-example row's trend fields are the trend computation on its history. -/
theorem c7_trend_witness :
    ((trendOf improvingHist).1 = "IMPROVING" ↔
      (improvingHist.filterMap (·.density)).getLastD 0 <
        (improvingHist.filterMap (·.density)).headD 0) ∧
    trendOf [histEntryWith "2024 H1" (3/10)] = ("NEW", 0) ∧
    (gapExampleRow.trend, gapExampleRow.trendPercent) = trendOf gapExampleRow.history := by
  have h := c7_trend improvingHist [histEntryWith "2024 H1" (3/10)]
    gapExampleResults DEFAULT_CONFIG
  refine ⟨(h.1 (by decide)).1, h.2.1 (by decide), ?_⟩
  exact h.2.2.1 gapExampleRow (by
    rw [show detect_systemic_cases gapExampleResults DEFAULT_CONFIG =
      [gapExampleRow] from rfl]
    exact List.mem_singleton_self _)

/-- Every Step 1 row's pass flag is the threshold test on its own count. -/
theorem mem_calculate_step1_passes {inad : List InadRecord} {minInad : ℕ}
    {r : Step1Row} (hr : r ∈ calculate_step1 inad minInad) :
    r.passes = decide (minInad ≤ r.inadCount) := by
  simp only [calculate_step1, List.mem_insertionSort, List.mem_map] at hr
  obtain ⟨p, _, rfl⟩ := hr
  rfl

/-- C8: every airline in Step 2's output is the airline of a Step 1 row
with `PassesThreshold` true; in Step 1 output the pass flag holds exactly
when the included-case count reaches `min_inad`; and every (airline, route)
of a Step 3 row comes from a Step 2 row with `PassesThreshold` true. -/
theorem c8_monotonic_filtering (inad : List InadRecord) (minInad : ℕ)
    (step2 : List Step2Row) (paxLookup : String × String → ℕ)
    (monthly : List MonthlyPax) (inadB : List InadRecord)
    (partnerMap : String × String → List String) (cfg : AnalysisConfig) :
    (∀ (step1 : List Step1Row), ∀ r2 ∈ calculate_step2 inad step1 minInad,
      r2.airline ∈ ((step1.filter (·.passes)).map (·.airline))) ∧
    (∀ r1 ∈ calculate_step1 inad minInad,
      (r1.passes = true ↔ minInad ≤ r1.inadCount)) ∧
    (∀ r3 ∈ calculate_step3_enhanced step2 paxLookup monthly inadB partnerMap cfg,
      (r3.airline, r3.lastStop) ∈
        ((step2.filter (·.passes)).map fun r2 => (r2.airline, r2.lastStop))) := by
  refine ⟨?_, ?_, ?_⟩
  · intro step1 r2 hr2
    simp only [calculate_step2, List.mem_insertionSort, List.mem_map] at hr2
    obtain ⟨p, hp, rfl⟩ := hr2
    simp only [groupCountBy, List.mem_map, List.mem_dedup] at hp
    obtain ⟨k, hk, hkp⟩ := hp
    obtain ⟨record, hrec, hkey⟩ := hk
    rw [List.mem_filter] at hrec
    have hpred := hrec.2
    rw [Bool.and_eq_true, decide_eq_true_eq] at hpred
    have hair : record.airline ∈ (step1.filter (·.passes)).map (·.airline) :=
      List.mem_map.mpr hpred.2
    subst hkp
    dsimp only
    rw [← hkey]
    exact hair
  · intro r1 hr1
    rw [mem_calculate_step1_passes hr1, decide_eq_true_eq]
  · intro r3 hr3
    obtain ⟨row2, hrow2, rfl⟩ := mem_calculate_step3_enhanced.mp hr3
    exact List.mem_map.mpr ⟨row2, hrow2, rfl⟩

/-- C8 witness: with the single-record case table and threshold 1, the one
Step 2 route's airline AA is the airline of a passing Step 1 row, the Step 1
row's pass flag matches its count, and the concrete pipeline's Step 3 row
comes from the passing Step 2 row (AA, XXX). -/
theorem c8_monotonic_filtering_witness :
    "AA" ∈ (((calculate_step1 exampleInad 1).filter (·.passes)).map (·.airline)) ∧
    ((⟨"AA", 1, true⟩ : Step1Row).passes = true ↔
      1 ≤ (⟨"AA", 1, true⟩ : Step1Row).inadCount) ∧
    ("AA", "XXX") ∈
      ((exampleStep2.filter (·.passes)).map fun r2 => (r2.airline, r2.lastStop)) := by
  have h := c8_monotonic_filtering exampleInad 1 exampleStep2 examplePaxLookup
    [] [] examplePartnerMap DEFAULT_CONFIG
  refine ⟨?_, ?_, ?_⟩
  · exact h.1 (calculate_step1 exampleInad 1) ⟨"AA", "XXX", 1, true⟩ (by
      rw [show calculate_step2 exampleInad (calculate_step1 exampleInad 1) 1 =
        [⟨"AA", "XXX", 1, true⟩] from rfl]
      exact List.mem_singleton_self _)
  · exact h.2.1 ⟨"AA", 1, true⟩ (by
      rw [show calculate_step1 exampleInad 1 = [⟨"AA", 1, true⟩] from rfl]
      exact List.mem_singleton_self _)
  · exact h.2.2 exampleStep3Row (by
      rw [show calculate_step3_enhanced exampleStep2 examplePaxLookup [] []
        examplePartnerMap DEFAULT_CONFIG = [exampleStep3Row] from rfl]
      exact List.mem_singleton_self _)

/-- C9: a raw row parsing to (year, month) with month in 1–6 contributes
that year's H1 semester tuple and with month in 7–12 its H2 tuple; the
enumerator's output is sorted descending and duplicate-free; and the
concrete records dated 2024-03 and 2024-09 enumerate to exactly the claimed
tuples. -/
theorem c9_period_enumeration (rows : List (RawCell × RawCell)) (y m : Int) :
    ((some (some y), some (some m)) ∈ rows → 1 ≤ m → m ≤ 6 →
      (y, 1, toString y ++ "-01-01", toString y ++ "-06-30") ∈
        get_available_semesters rows) ∧
    ((some (some y), some (some m)) ∈ rows → 7 ≤ m → m ≤ 12 →
      (y, 2, toString y ++ "-07-01", toString y ++ "-12-31") ∈
        get_available_semesters rows) ∧
    List.Sorted semTupleGe (get_available_semesters rows) ∧
    (get_available_semesters rows).Nodup ∧
    get_available_semesters [(some (some 2024), some (some 3))] =
      [(2024, 1, "2024-01-01", "2024-06-30")] ∧
    get_available_semesters [(some (some 2024), some (some 9))] =
      [(2024, 2, "2024-07-01", "2024-12-31")] := by
  refine ⟨?_, ?_, ?_, ?_, rfl, rfl⟩
  · intro hin h1 h6
    unfold get_available_semesters
    rw [List.mem_insertionSort, List.mem_dedup]
    refine List.mem_map.mpr ⟨(y, m), ?_, ?_⟩
    · rw [List.mem_dedup]
      exact List.mem_filterMap.mpr ⟨(some (some y), some (some m)), hin, rfl⟩
    · unfold bucketSemester
      rw [if_pos ⟨h1, h6⟩]
  · intro hin h7 h12
    unfold get_available_semesters
    rw [List.mem_insertionSort, List.mem_dedup]
    refine List.mem_map.mpr ⟨(y, m), ?_, ?_⟩
    · rw [List.mem_dedup]
      exact List.mem_filterMap.mpr ⟨(some (some y), some (some m)), hin, rfl⟩
    · unfold bucketSemester
      rw [if_neg (by omega)]
  · exact List.sorted_insertionSort semTupleGe _
  · exact (List.perm_insertionSort semTupleGe _).nodup_iff.mpr (List.nodup_dedup _)

/-- C9 witness: a record dated 2025-05 enumerates its H1 tuple and one
dated 2025-11 its H2 tuple. -/
theorem c9_period_enumeration_witness :
    ((2025 : Int), 1, "2025-01-01", "2025-06-30") ∈
      get_available_semesters [(some (some 2025), some (some 5))] ∧
    ((2025 : Int), 2, "2025-07-01", "2025-12-31") ∈
      get_available_semesters [(some (some 2025), some (some 11))] := by
  constructor
  · exact (c9_period_enumeration [(some (some 2025), some (some 5))] 2025 5).1
      (List.mem_singleton_self _) (by norm_num) (by norm_num)
  · exact (c9_period_enumeration [(some (some 2025), some (some 11))] 2025 11).2.1
      (List.mem_singleton_self _) (by norm_num) (by norm_num)

/-- C10: a raw row whose year and month parse as integers but whose month
is 13 reaches the `datetime` construction, which raises and aborts the
whole load even though an earlier row was valid; rows with a missing year
or an unparseable month are silently skipped; and a well-formed row loads
into its case record. -/
theorem c10_out_of_range_month_aborts :
    load_inad_data [goodRawRow, badMonthRawRow] (dateKey 2024 1 1)
      (dateKey 2024 6 30) = .error "ValueError" ∧
    load_inad_data [missingYearRawRow, unparseableMonthRawRow]
      (dateKey 2024 1 1) (dateKey 2024 6 30) = .ok [] ∧
    load_inad_data [goodRawRow] (dateKey 2024 1 1) (dateKey 2024 6 30) =
      .ok [⟨"AA", "XXX", 2024, 3, "A1", true, "Documentation"⟩] :=
  ⟨rfl, rfl, rfl⟩

end CasaReporting
